import Mathlib

/-!
Shallow embedding of the multi-backend data gateway and replication routing
layer of the S3 repository, together with theorems settling the frozen claims
about it.  Each definition is translated from the JavaScript source file named
in its doc comment; JavaScript `undefined`/`null` arguments are embedded as
`Option` values, callback outcomes as inductive result types, and a thrown
`TypeError` (reading a property of `undefined`) as an explicit `crash`
constructor.
-/

namespace S3

/-- Error taxonomy: the arsenal error values the embedded code returns. -/
inductive S3Error where
  | internalError
  | badDigest
  | objNotFound
  | malformedPOSTRequest
  | bucketNotEmpty
  | mpuInProgress
  | invalidBucketState
  | methodNotAllowed
  | invalidRequest
  | badRequest (msg : String)
  | noSuchKey
  | noSuchBucket
  | metadataOtherError
  deriving DecidableEq, Repr

/-- Data-retrieval record returned by a successful PUT (`key`,
`dataStoreName`, optional `dataStoreType` and `eTag`), as produced by
`multipleBackendGateway.put` and consumed by `wrapper.js`. `dataStoreType`
is absent on records written by a single-backend configuration. -/
structure DataRetrievalInfo where
  key : String
  dataStoreName : String
  dataStoreType : Option String := none
  eTag : Option String := none
  deriving DecidableEq, Repr

/-- Modelled from the spec: the `externalBackends` lookup table imported by
`src/lib/data/wrapper.js` from `constants.js`, a file not present in the
sources.  The spec names the external (cloud) backend types as `aws_s3`,
`azure` and `gcp` (remote cloud providers, as opposed to the internal
`mem`, `file`, `scality`, `cdmi` backends). -/
def externalBackends (t : String) : Bool :=
  t == "aws_s3" || t == "azure" || t == "gcp"

/-- The per-record form of the skip test of `batchDelete`: the JavaScript
`(loc && loc.dataStoreType) ? skipBackend[loc.dataStoreType] : false` — a
record with no `dataStoreType` is never skip-eligible. -/
def recordIsExternal (l : DataRetrievalInfo) : Bool :=
  match l.dataStoreType with
  | some t => externalBackends t
  | none => false

/-- From `src/lib/data/wrapper.js` `batchDelete` (lines 210-245): computes the
list of records for which a delete is issued.  The skip test reads only
`locations[0]`: `isSkipBackend` applies `recordIsExternal` to `locations[0]`,
and `isMatchingBackends` compares `locations[0].dataStoreName` with
`newObjDataStoreName`.  When the request method is `PUT` and both hold, the
function returns before deleting anything; otherwise
`async.eachLimit(locations, 5, ...)` deletes every record. -/
def batchDelete (locations : List DataRetrievalInfo)
    (requestMethod : Option String) (newObjDataStoreName : Option String) :
    List DataRetrievalInfo :=
  let isSkipBackend : Bool :=
    match locations.head? with
    | some l => recordIsExternal l
    | none => false
  let isMatchingBackends : Bool :=
    match locations.head? with
    | some l => (some l.dataStoreName : Option String) == newObjDataStoreName
    | none => false
  if requestMethod == some "PUT" && isSkipBackend && isMatchingBackends then
    []
  else
    locations

/-- Outcome of a data-wrapper delete as seen by the caller. -/
inductive DeleteResult where
  | success
  | internalError
  deriving DecidableEq, Repr

/-- From `src/lib/data/wrapper.js`: `const MAX_RETRY = 2`. -/
def MAX_RETRY : Nat := 2

/-- From `src/lib/data/wrapper.js` `_retryDelete` (lines 56-68).  The backend
delete attempt at count `k` is abstracted by the oracle `outcome k`
(`true` = the backend call succeeds).  Returns the caller-visible result
paired with the list of attempt counts actually issued, in order: the source
returns `InternalError` as soon as `count > MAX_RETRY`, otherwise attempts
`client.delete` and recurses with `count + 1` on failure. -/
def retryDeleteFrom (outcome : Nat → Bool) (count : Nat) :
    DeleteResult × List Nat :=
  if MAX_RETRY < count then
    (.internalError, [])
  else if outcome count then
    (.success, [count])
  else
    let rest := retryDeleteFrom outcome (count + 1)
    (rest.1, count :: rest.2)
  termination_by MAX_RETRY + 1 - count

/-- From `src/lib/data/wrapper.js` `delete` (lines 188-206): starts
`_retryDelete` at count 0 and hands its error (if any) to the caller. -/
def dataDelete (outcome : Nat → Bool) : DeleteResult × List Nat :=
  retryDeleteFrom outcome 0

/-- Outcome of `checkHashMatchMD5`: either `BadDigest` together with the list
of records handed to the background `batchDelete`, or the record and the
completed hash handed to the caller. -/
inductive HashCheckResult where
  | badDigest (deleted : List DataRetrievalInfo)
  | ok (info : DataRetrievalInfo) (completedHash : Option String)
  deriving DecidableEq, Repr

/-- From `src/lib/api/apiUtils/object/storeObject.js` `checkHashMatchMD5`
(lines 19-34).  `stream.contentMD5` and `hashedStream.completedHash` are
embedded as `Option String` (`none` = absent/falsy).  When both are present
and differ, the source pushes the retrieval record into `dataToDelete` and
calls `data.batchDelete(dataToDelete, null, null, log)` before returning
`BadDigest`; otherwise it hands back the record and the completed hash. -/
def checkHashMatchMD5 (contentMD5 completedHash : Option String)
    (info : DataRetrievalInfo) : HashCheckResult :=
  match contentMD5, completedHash with
  | some c, some h =>
    if c ≠ h then .badDigest (batchDelete [info] none none)
    else .ok info (some h)
  | _, _ => .ok info completedHash

/-- One entry of the `locationConstraints` configuration table: its backend
`type` tag and `details.bucketName` (absent for locations whose details do
not name a backend bucket). -/
structure LocationConfig where
  type : String
  bucketName : Option String := none
  deriving DecidableEq, Repr

/-- Headers consulted by `_checkMultipleBackendRequest`; `none` stands for a
header not present on the request (`undefined` in the source). -/
structure BackbeatHeaders where
  scalVersionId : Option String := none
  scalPartNumber : Option String := none
  scalUploadId : Option String := none
  scalCanonicalId : Option String := none
  contentMD5 : Option String := none
  scalStorageType : Option String := none
  scalStorageClass : Option String := none
  deriving DecidableEq, Repr

/-- The `isValidLocation` computation of `_checkMultipleBackendRequest`
(`src/lib/routes/routeBackbeat.js` lines 107-110): `location &&
location.type === headers[x-scal-storage-type] && location.details.bucketName
=== bucketName`, where `location` is the configured entry named by the
`x-scal-storage-class` header. -/
def isValidLocationCheck (lc : String → Option LocationConfig)
    (h : BackbeatHeaders) (bucketName : String) : Bool :=
  match h.scalStorageClass with
  | some cls =>
    match lc cls with
    | some loc =>
      (some loc.type : Option String) == h.scalStorageType
        && loc.bucketName == some bucketName
    | none => false
  | none => false

/-- From `src/lib/routes/routeBackbeat.js` `_checkMultipleBackendRequest`
(lines 63-122): the cascade of missing-header `BadRequest` rejections,
followed by the location-coherence check, which requires the configured
location named by `x-scal-storage-class` to exist, its `type` to equal
`x-scal-storage-type`, and its `details.bucketName` to equal the request's
bucket name; any failure of the latter yields `InvalidRequest`.  Returns
`none` when the request passes every check. -/
def checkMultipleBackendRequest (lc : String → Option LocationConfig)
    (operation : String) (h : BackbeatHeaders) (bucketName : String) :
    Option S3Error :=
  if (operation == "initiatempu" || operation == "putobject")
      && h.scalVersionId == none then
    some (.badRequest "bad request: missing x-scal-version-id header")
  else if operation == "putpart" && h.scalPartNumber == none then
    some (.badRequest "bad request: missing part-number header")
  else if (operation == "putpart" || operation == "completempu")
      && h.scalUploadId == none then
    some (.badRequest "bad request: missing upload-id header")
  else if operation == "putobject" && h.scalCanonicalId == none then
    some (.badRequest "bad request: missing x-scal-canonical-id header")
  else if operation == "putobject" && h.contentMD5 == none then
    some (.badRequest "bad request: missing content-md5 header")
  else if h.scalStorageType == none then
    some (.badRequest "bad request: missing x-scal-storage-type header")
  else if h.scalStorageClass == none then
    some (.badRequest "bad request: missing x-scal-storage-class header")
  else
    let isValidLocation : Bool := isValidLocationCheck lc h bucketName
    if !isValidLocation then some .invalidRequest else none

/-- Object metadata as handled by the backbeat `putMetadata` handler: the
physical `location` record, the `versionId` read by the handler to build the
put options, and `rest`, standing for every other metadata field of the
JSON document (carried around unchanged by the handler). -/
structure ObjMD where
  location : List DataRetrievalInfo
  versionId : Option String := none
  rest : String := ""
  deriving DecidableEq, Repr

/-- Options handed to `metadata.putObjectMD` by `putMetadata`. -/
structure PutMDOptions where
  versioning : Bool
  versionId : Option String
  deriving DecidableEq, Repr

/-- Result of the backbeat `putMetadata` handler: an error handed to the
callback, or the metadata value and options handed to
`metadata.putObjectMD`. -/
inductive PutMetadataResult where
  | err (e : S3Error)
  | stored (md : ObjMD) (options : PutMDOptions)
  deriving DecidableEq, Repr

/-- From `src/lib/routes/routeBackbeat.js` `putMetadata` (lines 190-235).
`payload` is the parsed request body (`none` = unparseable JSON, rejected
with `MalformedPOSTRequest`); `objMd` is the target object's existing
metadata (`none` = target absent); `replicationContent` is the
`x-scal-replication-content` header.  When that header equals `METADATA`,
a missing target fails with `ObjNotFound` and an existing target has its
`location` copied into the incoming value (`omVal.location =
objMd.location`) before the store; the options always request
`versioning: true` with the incoming value's `versionId`. -/
def putMetadata (replicationContent : Option String) (objMd : Option ObjMD)
    (payload : Option ObjMD) : PutMetadataResult :=
  match payload with
  | none => .err .malformedPOSTRequest
  | some omVal0 =>
    if replicationContent = some "METADATA" then
      match objMd with
      | none => .err .objNotFound
      | some m =>
        let omVal := { omVal0 with location := m.location }
        .stored omVal { versioning := true, versionId := omVal.versionId }
    else
      .stored omVal0 { versioning := true, versionId := omVal0.versionId }

/-- Identifiers of the backbeat route handlers registered in the
`backbeatRoutes` table. -/
inductive HandlerId where
  | putData
  | putMetadata
  | putObject
  | putPart
  | initiateMultipartUpload
  | completeMultipartUpload
  | deleteObject
  deriving DecidableEq, Repr

/-- From the `backbeatRoutes` table of `src/lib/routes/routeBackbeat.js`
(lines 390-410), combined with the `invalidRoute` test (lines 453-458):
returns the handler registered for the method, resource type and (for
`multiplebackenddata` only) `operation` query parameter, or `none` when the
route is invalid. -/
def backbeatRouteLookup (method resourceType : String)
    (operation : Option String) : Option HandlerId :=
  match method, resourceType with
  | "PUT", "data" => some .putData
  | "PUT", "metadata" => some .putMetadata
  | "PUT", "multiplebackenddata" =>
    match operation with
    | some "putobject" => some .putObject
    | some "putpart" => some .putPart
    | _ => none
  | "POST", "multiplebackenddata" =>
    match operation with
    | some "initiatempu" => some .initiateMultipartUpload
    | some "completempu" => some .completeMultipartUpload
    | _ => none
  | "DELETE", "multiplebackenddata" =>
    match operation with
    | some "deleteobject" => some .deleteObject
    | _ => none
  | _, _ => none

/-- The target bucket's versioning configuration; `status` embeds its
`Status` field. -/
structure VersioningConfiguration where
  status : Option String := none
  deriving DecidableEq, Repr

/-- Bucket metadata as consulted by the backbeat route dispatcher. -/
structure BucketInfo where
  versioningConfiguration : Option VersioningConfiguration := none
  deriving DecidableEq, Repr

/-- Outcome of the backbeat route-dispatch step: an error response, or the
invocation of a route handler. -/
inductive RouteStep where
  | errResp (e : S3Error)
  | invokeHandler (h : HandlerId)
  deriving DecidableEq, Repr

/-- From `src/lib/routes/routeBackbeat.js` `routeBackbeat`, third waterfall
step (lines 452-484): an invalid route yields `MethodNotAllowed`; a
`multiplebackenddata` route handler is invoked directly; for the `data` and
`metadata` routes, the handler is invoked only when
`bucketInfo.getVersioningConfiguration()` exists and its `Status` is
`Enabled`, otherwise the request fails with `InvalidBucketState`. -/
def routeBackbeatStep (method resourceType : String)
    (operation : Option String) (bucketInfo : BucketInfo) : RouteStep :=
  match backbeatRouteLookup method resourceType operation with
  | none => .errResp .methodNotAllowed
  | some h =>
    if resourceType == "multiplebackenddata" then
      .invokeHandler h
    else
      match bucketInfo.versioningConfiguration with
      | none => .errResp .invalidBucketState
      | some vc =>
        if vc.status == some "Enabled" then .invokeHandler h
        else .errResp .invalidBucketState

/-- A registered backend client, identified by its `clientType` tag (the
only client field dereferenced by the gateway code the claims concern). -/
structure BackendClient where
  clientType : String
  deriving DecidableEq, Repr

/-- Outcome of one Multi-Backend Gateway operation.  `crash` embeds a thrown
`TypeError` (the source read a property of `undefined`), in which case the
callback is never invoked; `cbErr`/`cbOk` are callback invocations with an
error or a value; `cbEmpty` is `cb()` invoked with no arguments at all. -/
inductive GatewayResult (α : Type) where
  | crash
  | cbErr (e : S3Error)
  | cbOk (v : α)
  | cbEmpty
  deriving DecidableEq, Repr

/-- From `src/unnamed/part_003` (the `multipleBackendGateway` module) `put`
(lines 13-64).  A missing client for the controlling location constraint is
reported as `InternalError` through the callback; invalid tagging likewise;
otherwise the client's `(err, key, eTag)` callback (abstracted as
`backendResult`) is translated into either `InternalError` or a
data-retrieval record carrying the location name and client type. -/
def mbgPut (clients : String → Option BackendClient)
    (controllingLocationConstraint : String)
    (taggingPresent taggingValid : Bool)
    (backendResult : Except Unit (String × Option String)) :
    GatewayResult DataRetrievalInfo :=
  match clients controllingLocationConstraint with
  | none => .cbErr .internalError
  | some client =>
    if taggingPresent && !taggingValid then .cbErr .internalError
    else
      match backendResult with
      | .error _ => .cbErr .internalError
      | .ok (key, eTag) =>
        .cbOk { key := key, dataStoreName := controllingLocationConstraint,
                dataStoreType := some client.clientType, eTag := eTag }

/-- The `objectGetInfo` argument of the gateway's `get`/`delete`: either a
bare key string (pre-`dataStoreName` records, routed to the `legacy`
client) or a retrieval record (routed to `clients[info.dataStoreName]`). -/
inductive ObjectGetInfoArg where
  | bareKey (k : String)
  | record (info : DataRetrievalInfo)
  deriving DecidableEq, Repr

/-- Client selection shared by the gateway's `get` and `delete`
(`src/unnamed/part_003`, lines 66-98): the `legacy` client for a bare
string, `clients[objectGetInfo.dataStoreName]` otherwise. -/
def mbgClientFor (clients : String → Option BackendClient)
    (arg : ObjectGetInfoArg) : Option BackendClient :=
  match arg with
  | .bareKey _ => clients "legacy"
  | .record info => clients info.dataStoreName

/-- From `src/unnamed/part_003` `get` (lines 66-81).  The source reads
`client.clientType` with no missing-client guard, so an unregistered
location crashes with a `TypeError` before any callback; with a client
present, both the scality and the generic branch delegate to `client.get`
with the same callback, whose outcome is `clientOutcome`. -/
def mbgGet (clients : String → Option BackendClient) (arg : ObjectGetInfoArg)
    (clientOutcome : GatewayResult String) : GatewayResult String :=
  match mbgClientFor clients arg with
  | none => .crash
  | some _ => clientOutcome

/-- From `src/unnamed/part_003` `delete` (lines 83-98); same shape as
`mbgGet`: no missing-client guard (`client.clientType` is dereferenced
unconditionally), then delegation to `client.delete`. -/
def mbgDelete (clients : String → Option BackendClient)
    (arg : ObjectGetInfoArg) (clientOutcome : GatewayResult Unit) :
    GatewayResult Unit :=
  match mbgClientFor clients arg with
  | none => .crash
  | some _ => clientOutcome

/-- The result object an AWS client's `createMPU` hands to its callback;
the route handler reads its `UploadId` field. -/
structure MPUData where
  UploadId : String
  deriving DecidableEq, Repr

/-- From `src/unnamed/part_003` `createMPU` (lines 155-163): dereferences
`clients[location].clientType` (crash when the location is unregistered);
delegates to the client when its type is `aws_s3` (outcome `awsOutcome`),
and otherwise invokes `cb()` with no error and no data. -/
def mbgCreateMPU (clients : String → Option BackendClient) (location : String)
    (awsOutcome : GatewayResult MPUData) : GatewayResult MPUData :=
  match clients location with
  | none => .crash
  | some client =>
    if client.clientType == "aws_s3" then awsOutcome
    else .cbEmpty

/-- Outcome of the backbeat `initiateMultipartUpload` route handler: the
promised `uploadId` JSON response, an error passed to the callback, or a
crash (thrown `TypeError`) producing neither. -/
inductive InitiateMPUOutcome where
  | respondUploadId (uploadId : String)
  | errResp (e : S3Error)
  | crash
  deriving DecidableEq, Repr

/-- From `src/lib/routes/routeBackbeat.js` `initiateMultipartUpload`
(lines 302-328): runs `_checkMultipleBackendRequest`, then calls
`multipleBackendGateway.createMPU` with the `x-scal-storage-class` location
and, on a callback with no error, reads `data.UploadId` to build the
response — which throws a `TypeError` when the callback delivered no data
object at all. -/
def initiateMultipartUpload (lc : String → Option LocationConfig)
    (clients : String → Option BackendClient) (h : BackbeatHeaders)
    (bucketName : String) (awsOutcome : GatewayResult MPUData) :
    InitiateMPUOutcome :=
  match checkMultipleBackendRequest lc "initiatempu" h bucketName with
  | some e => .errResp e
  | none =>
    match h.scalStorageClass with
    | none => .crash
    | some storageLocation =>
      match mbgCreateMPU clients storageLocation awsOutcome with
      | .crash => .crash
      | .cbErr e => .errResp e
      | .cbOk d => .respondUploadId d.UploadId
      | .cbEmpty => .crash

/-- From `src/lib/data/external/GcpClient.js` `_createGcpKey` (lines 28-33).
The `bucketMatch` parameter is an `Option Bool` because two of the three
call sites omit the argument (`undefined` in the source); only a truthy
value (`some true`) selects the bare object key. -/
def createGcpKey (requestBucketName requestObjectKey : String)
    (bucketMatch : Option Bool) : String :=
  if bucketMatch = some true then requestObjectKey
  else requestBucketName ++ "/" ++ requestObjectKey

/-- From `GcpClient.put` (lines 111-133): the native key is
`this._createGcpKey(keyContext.bucketName, keyContext.objectKey,
this._bucketMatch)`, passing the location's configured `bucketMatch`. -/
def gcpPutKey (cfgBucketMatch : Bool) (bucketName objectKey : String) :
    String :=
  createGcpKey bucketName objectKey (some cfgBucketMatch)

/-- From `GcpClient.objectPutTagging` (lines 211-229): the native key is
`this._createGcpKey(bucket, key)` — the `bucketMatch` argument is omitted
in the source, so it arrives as `undefined` regardless of the location's
configured flag. -/
def gcpObjectPutTaggingKey (bucketName objectKey : String) : String :=
  createGcpKey bucketName objectKey none

/-- From `GcpClient.objectDeleteTagging` (lines 240-258): identical key
derivation to `objectPutTagging`, again omitting the `bucketMatch`
argument. -/
def gcpObjectDeleteTaggingKey (bucketName objectKey : String) : String :=
  createGcpKey bucketName objectKey none

/-- Result of the `metadata.listObject` call on the bucket itself
(`listingType: DelimiterVersions`): the combined length of `Versions` and
`DeleteMarkers`, or a metadata error. -/
inductive MdListVersionsResult where
  | ok (count : Nat)
  | otherErr
  deriving DecidableEq, Repr

/-- Result of the `metadata.listObject` call on the shadow MPU bucket with
the `overview` key filter: `Contents.length`, `NoSuchBucket` (no shadow
bucket ever created) or another metadata error. -/
inductive MdListMPUResult where
  | ok (count : Nat)
  | noSuchBucket
  | otherErr
  deriving DecidableEq, Repr

/-- Result of one `metadata.deleteObjectMD` call against a users bucket. -/
inductive MdDeleteEntryResult where
  | ok
  | noSuchKey
  | noSuchBucket
  | otherErr
  deriving DecidableEq, Repr

/-- Result of a `metadata.deleteBucket` / `metadata.updateBucket` call. -/
inductive MdOpResult where
  | ok
  | noSuchBucket
  | otherErr
  deriving DecidableEq, Repr

/-- Mutating metadata/KMS calls issued by the bucket-deletion pipeline, in
issue order. -/
inductive BucketEffect where
  | deleteMPUShadowBucket
  | updateBucketDeletedFlag
  | deleteUserEntry
  | deleteLegacyUserEntry
  | deleteBucketMD
  | destroyKMSKey
  deriving DecidableEq, Repr

/-- Responses of the metadata store and the bucket's SSE setting, fixing one
run of `deleteBucket` from `src/lib/api/apiUtils/bucket/bucketDeletion.js`. -/
structure DeleteBucketEnv where
  listVersions : MdListVersionsResult
  listMPU : MdListMPUResult
  deleteMPUBucketResult : MdOpResult
  updateBucketResult : MdOpResult
  userEntryDelete : MdDeleteEntryResult
  legacyEntryDelete : MdDeleteEntryResult
  deleteBucketMDResult : MdOpResult
  sseAES256 : Bool
  deriving DecidableEq, Repr

/-- From `src/lib/api/apiUtils/bucket/bucketDeletion.js`
`_deleteUserBucketEntry` (lines 16-51): deletes the bucket's entry from the
users bucket, tolerating `NoSuchKey`; on `NoSuchBucket` falls back to the
legacy users bucket and splitter, tolerating `NoSuchKey` there.  Returns
the error handed to the continuation and the delete calls issued. -/
def deleteUserBucketEntry (env : DeleteBucketEnv) :
    Option S3Error × List BucketEffect :=
  match env.userEntryDelete with
  | .ok => (none, [.deleteUserEntry])
  | .noSuchKey => (none, [.deleteUserEntry])
  | .noSuchBucket =>
    match env.legacyEntryDelete with
    | .ok => (none, [.deleteUserEntry, .deleteLegacyUserEntry])
    | .noSuchKey => (none, [.deleteUserEntry, .deleteLegacyUserEntry])
    | _ => (some .metadataOtherError, [.deleteUserEntry, .deleteLegacyUserEntry])
  | .otherErr => (some .metadataOtherError, [.deleteUserEntry])

/-- Continuation of `deleteBucket` after the two listing checks have passed:
`addDeleteFlagStep` (remove transient flag, add deleted flag, persist via
`metadata.updateBucket`), `deleteUserBucketEntryStep`, then
`actualDeletionStep` (`metadata.deleteBucket` and, when the bucket has
AES-256 server-side encryption, `kms.destroyBucketKey`).  `acc` carries the
effects already issued by the MPU step. -/
def deleteBucketMarkAndFinalise (env : DeleteBucketEnv)
    (acc : List BucketEffect) : Option S3Error × List BucketEffect :=
  let acc1 := acc ++ [BucketEffect.updateBucketDeletedFlag]
  match env.updateBucketResult with
  | .ok =>
    let r := deleteUserBucketEntry env
    let acc2 := acc1 ++ r.2
    match r.1 with
    | some e => (some e, acc2)
    | none =>
      let acc3 := acc2 ++ [BucketEffect.deleteBucketMD]
      match env.deleteBucketMDResult with
      | .ok =>
        if env.sseAES256 then (none, acc3 ++ [BucketEffect.destroyKMSKey])
        else (none, acc3)
      | _ => (some .metadataOtherError, acc3)
  | _ => (some .metadataOtherError, acc1)

/-- From `src/lib/api/apiUtils/bucket/bucketDeletion.js` `deleteBucket`
(lines 107-198): the sequential waterfall.  `checkForObjectsStep` lists
versions and delete-markers with `maxKeys: 1` and fails with
`BucketNotEmpty` on any hit; `deleteMPUbucketStep` lists the shadow MPU
bucket's `overview` keys (`maxKeys: 1`), tolerates `NoSuchBucket`, fails
with `MPUinProgress` on any hit, and otherwise deletes the shadow bucket
via `_deleteMPUbucket` (which tolerates `NoSuchBucket`); the remaining
steps mark, detach and finalise.  Returns the caller-visible error (if
any) and the mutating calls issued, in order. -/
def deleteBucket (env : DeleteBucketEnv) :
    Option S3Error × List BucketEffect :=
  match env.listVersions with
  | .otherErr => (some .metadataOtherError, [])
  | .ok vcount =>
    if vcount ≠ 0 then (some .bucketNotEmpty, [])
    else
      match env.listMPU with
      | .otherErr => (some .metadataOtherError, [])
      | .noSuchBucket => deleteBucketMarkAndFinalise env []
      | .ok mcount =>
        if mcount ≠ 0 then (some .mpuInProgress, [])
        else
          match env.deleteMPUBucketResult with
          | .otherErr =>
            (some .metadataOtherError, [BucketEffect.deleteMPUShadowBucket])
          | _ =>
            deleteBucketMarkAndFinalise env [BucketEffect.deleteMPUShadowBucket]

/-! Concrete sample values used by counterexamples and witnesses. -/

/-- A record held by an external backend location named `awsloc`. -/
def cexExternalRecord : DataRetrievalInfo :=
  { key := "k1", dataStoreName := "awsloc", dataStoreType := some "aws_s3" }

/-- A record held by an internal backend (no `dataStoreType`). -/
def cexInternalRecord : DataRetrievalInfo :=
  { key := "k2", dataStoreName := "file", dataStoreType := none }

/-- A plain sample retrieval record. -/
def sampleRecord : DataRetrievalInfo :=
  { key := "d1", dataStoreName := "file" }

/-! Theorems settling the claims. -/

/-- C1 counterexample: the claim asserts that whenever NOT every record of
the batch is external and co-located with the new object, every record in
the list is deleted.  On the list `[cexExternalRecord, cexInternalRecord]`
with a `PUT` request targeting `awsloc`, the second record is internal, so
the claim demands both records be deleted — but the source skips the whole
batch because it tests only `locations[0]`, deleting nothing. -/
theorem batchDelete_all_records_claim_false :
    ¬ ((((some "PUT" : Option String) = some "PUT" ∧
          (∀ l ∈ [cexExternalRecord, cexInternalRecord],
            recordIsExternal l = true) ∧
          (∀ l ∈ [cexExternalRecord, cexInternalRecord],
            (some l.dataStoreName : Option String) = some "awsloc")) →
        batchDelete [cexExternalRecord, cexInternalRecord] (some "PUT")
          (some "awsloc") = []) ∧
       (¬ ((some "PUT" : Option String) = some "PUT" ∧
          (∀ l ∈ [cexExternalRecord, cexInternalRecord],
            recordIsExternal l = true) ∧
          (∀ l ∈ [cexExternalRecord, cexInternalRecord],
            (some l.dataStoreName : Option String) = some "awsloc")) →
        batchDelete [cexExternalRecord, cexInternalRecord] (some "PUT")
          (some "awsloc") = [cexExternalRecord, cexInternalRecord])) := by
  decide

/-- C1 (amended): the overwrite-skip decision is taken from the FIRST record
of the list alone.  On a `PUT` request, if the first record is external and
its `dataStoreName` equals the new object's destination, no record in the
list is deleted; in every other case (first record internal or
cross-location, non-`PUT` methods) every record in the list is deleted. -/
theorem batchDelete_skip_decided_by_first_record
    (l0 : DataRetrievalInfo) (tl : List DataRetrievalInfo)
    (newName : Option String) :
    (recordIsExternal l0 = true → some l0.dataStoreName = newName →
      batchDelete (l0 :: tl) (some "PUT") newName = []) ∧
    (recordIsExternal l0 = false ∨ some l0.dataStoreName ≠ newName →
      batchDelete (l0 :: tl) (some "PUT") newName = l0 :: tl) ∧
    (∀ method, method ≠ some "PUT" →
      batchDelete (l0 :: tl) method newName = l0 :: tl) ∧
    (∀ method, batchDelete ([] : List DataRetrievalInfo) method newName
      = []) := by
  refine ⟨?_, ?_, ?_, ?_⟩
  · intro hext hmatch
    simp [batchDelete, hext, hmatch]
  · rintro (hf | hne)
    · simp [batchDelete, hf]
    · simp [batchDelete, beq_eq_false_iff_ne, hne]
  · intro method hm
    simp [batchDelete, beq_eq_false_iff_ne, hm]
  · intro method
    simp [batchDelete]

/-- C1 amended-claim witness: on a single-record batch, the skip fires for
the external co-located record under `PUT` and does not fire for an
internal record. -/
theorem batchDelete_skip_decided_by_first_record_witness :
    batchDelete [cexExternalRecord] (some "PUT") (some "awsloc") = [] ∧
    batchDelete [cexInternalRecord] (some "PUT") (some "awsloc")
      = [cexInternalRecord] :=
  ⟨(batchDelete_skip_decided_by_first_record cexExternalRecord []
      (some "awsloc")).1 (by decide) (by decide),
   (batchDelete_skip_decided_by_first_record cexInternalRecord []
      (some "awsloc")).2.1 (Or.inl (by decide))⟩

/-- Unfolding lemma: `_retryDelete` stops with `InternalError` once the
count exceeds `MAX_RETRY`. -/
theorem retryDeleteFrom_stop (outcome : Nat → Bool) (count : Nat)
    (hc : MAX_RETRY < count) :
    retryDeleteFrom outcome count = (.internalError, []) := by
  rw [retryDeleteFrom]
  simp [hc]

/-- Unfolding lemma: a successful backend attempt ends the retry loop. -/
theorem retryDeleteFrom_hit (outcome : Nat → Bool) (count : Nat)
    (hc : ¬ MAX_RETRY < count) (h : outcome count = true) :
    retryDeleteFrom outcome count = (.success, [count]) := by
  rw [retryDeleteFrom]
  simp [hc, h]

/-- Unfolding lemma: a failed backend attempt recurses with `count + 1`. -/
theorem retryDeleteFrom_miss (outcome : Nat → Bool) (count : Nat)
    (hc : ¬ MAX_RETRY < count) (h : outcome count = false) :
    retryDeleteFrom outcome count =
      ((retryDeleteFrom outcome (count + 1)).1,
        count :: (retryDeleteFrom outcome (count + 1)).2) := by
  rw [retryDeleteFrom]
  simp [hc, h]

/-- C3: a data-wrapper delete issues at most three backend attempts in
total; when all of attempts 0, 1, 2 fail the caller receives
`InternalError` (after exactly those three attempts); when the first
success happens at attempt `k ≤ MAX_RETRY`, the caller receives success
and the attempts issued are exactly `0..k` — none after the success. -/
theorem dataDelete_three_attempts (outcome : Nat → Bool) :
    (dataDelete outcome).2.length ≤ 3 ∧
    (outcome 0 = false → outcome 1 = false → outcome 2 = false →
      dataDelete outcome = (DeleteResult.internalError, [0, 1, 2])) ∧
    (∀ k, k ≤ MAX_RETRY → (∀ j, j < k → outcome j = false) →
      outcome k = true →
      dataDelete outcome = (DeleteResult.success, List.range (k + 1))) := by
  have e3 := retryDeleteFrom_stop outcome 3 (by decide)
  refine ⟨?_, ?_, ?_⟩
  · cases h0 : outcome 0 with
    | true => simp [dataDelete, retryDeleteFrom_hit outcome 0 (by decide) h0]
    | false =>
      cases h1 : outcome 1 with
      | true =>
        simp [dataDelete, retryDeleteFrom_miss outcome 0 (by decide) h0,
          retryDeleteFrom_hit outcome 1 (by decide) h1]
      | false =>
        cases h2 : outcome 2 with
        | true =>
          simp [dataDelete, retryDeleteFrom_miss outcome 0 (by decide) h0,
            retryDeleteFrom_miss outcome 1 (by decide) h1,
            retryDeleteFrom_hit outcome 2 (by decide) h2]
        | false =>
          simp [dataDelete, retryDeleteFrom_miss outcome 0 (by decide) h0,
            retryDeleteFrom_miss outcome 1 (by decide) h1,
            retryDeleteFrom_miss outcome 2 (by decide) h2, e3]
  · intro h0 h1 h2
    simp [dataDelete, retryDeleteFrom_miss outcome 0 (by decide) h0,
      retryDeleteFrom_miss outcome 1 (by decide) h1,
      retryDeleteFrom_miss outcome 2 (by decide) h2, e3]
  · intro k hk hprev hhit
    have hk2 : k ≤ 2 := hk
    interval_cases k
    · simp [dataDelete, retryDeleteFrom_hit outcome 0 (by decide) hhit,
        List.range_succ]
    · simp [dataDelete,
        retryDeleteFrom_miss outcome 0 (by decide) (hprev 0 (by omega)),
        retryDeleteFrom_hit outcome 1 (by decide) hhit, List.range_succ]
    · simp [dataDelete,
        retryDeleteFrom_miss outcome 0 (by decide) (hprev 0 (by omega)),
        retryDeleteFrom_miss outcome 1 (by decide) (hprev 1 (by omega)),
        retryDeleteFrom_hit outcome 2 (by decide) hhit, List.range_succ]

/-- C3 witness: with a backend that fails attempt 0 and succeeds at
attempt 1, the wrapper delete succeeds after exactly the attempts 0 and
1. -/
theorem dataDelete_three_attempts_witness :
    dataDelete (fun n => n == 1) = (DeleteResult.success, List.range 2) :=
  (dataDelete_three_attempts (fun n => n == 1)).2.2 1 (by decide)
    (by
      intro j hj
      have hj0 : j = 0 := Nat.lt_one_iff.mp hj
      subst hj0
      rfl)
    rfl

/-- C4: when both a caller-supplied `Content-MD5` and a completed stream
hash are present and differ, `checkHashMatchMD5` returns `BadDigest` and
batch-deletes exactly the just-written retrieval record; when no
`Content-MD5` was supplied or the hashes agree, it returns the record and
the completed hash with no deletion. -/
theorem checkHashMatchMD5_spec (c h : Option String)
    (info : DataRetrievalInfo) :
    ((∃ cs hs, c = some cs ∧ h = some hs ∧ cs ≠ hs) →
      checkHashMatchMD5 c h info = .badDigest [info]) ∧
    ((c = none ∨ c = h) → checkHashMatchMD5 c h info = .ok info h) := by
  constructor
  · rintro ⟨cs, hs, rfl, rfl, hne⟩
    simp [checkHashMatchMD5, hne, batchDelete]
  · rintro (rfl | rfl)
    · cases h <;> simp [checkHashMatchMD5]
    · cases c <;> simp [checkHashMatchMD5]

/-- C4 witness: a concrete mismatch deletes exactly the just-written
record; a match and an absent `Content-MD5` delete nothing. -/
theorem checkHashMatchMD5_spec_witness :
    checkHashMatchMD5 (some "md5a") (some "md5b") sampleRecord
      = .badDigest [sampleRecord] ∧
    checkHashMatchMD5 (some "md5a") (some "md5a") sampleRecord
      = .ok sampleRecord (some "md5a") ∧
    checkHashMatchMD5 none (some "md5a") sampleRecord
      = .ok sampleRecord (some "md5a") :=
  ⟨(checkHashMatchMD5_spec (some "md5a") (some "md5b") sampleRecord).1
      ⟨"md5a", "md5b", rfl, rfl, by decide⟩,
   (checkHashMatchMD5_spec (some "md5a") (some "md5a") sampleRecord).2
      (Or.inr rfl),
   (checkHashMatchMD5_spec none (some "md5a") sampleRecord).2
      (Or.inl rfl)⟩

/-- C9: evaluation at the failing input.  On a location with
`bucketMatch = true`, `put` derives the bare object key, but
`objectPutTagging` and `objectDeleteTagging` — which omit the
`bucketMatch` argument of `_createGcpKey` — derive the bucket-prefixed
key, so the tagging operations address a different native key than the
one the object was written under. -/
theorem gcpTaggingKey_ignores_bucketMatch :
    gcpPutKey true "b1" "obj" = "obj" ∧
    gcpPutKey false "b1" "obj" = "b1/obj" ∧
    gcpObjectPutTaggingKey "b1" "obj" = "b1/obj" ∧
    gcpObjectDeleteTaggingKey "b1" "obj" = "b1/obj" ∧
    gcpObjectPutTaggingKey "b1" "obj" ≠ gcpPutKey true "b1" "obj" := by
  refine ⟨rfl, rfl, rfl, rfl, by decide⟩

/-- Presence of every header whose absence makes
`_checkMultipleBackendRequest` return a `BadRequest` before reaching the
location-coherence check, for the given operation. -/
def noMissingBackendHeader (operation : String) (h : BackbeatHeaders) :
    Prop :=
  ((operation = "initiatempu" ∨ operation = "putobject") →
    h.scalVersionId ≠ none) ∧
  (operation = "putpart" → h.scalPartNumber ≠ none) ∧
  ((operation = "putpart" ∨ operation = "completempu") →
    h.scalUploadId ≠ none) ∧
  (operation = "putobject" → h.scalCanonicalId ≠ none) ∧
  (operation = "putobject" → h.contentMD5 ≠ none) ∧
  h.scalStorageType ≠ none ∧
  h.scalStorageClass ≠ none

instance noMissingBackendHeaderDecidable (operation : String)
    (h : BackbeatHeaders) : Decidable (noMissingBackendHeader operation h) := by
  unfold noMissingBackendHeader
  infer_instance

/-- The location-coherence property the spec states: the configured location
named by `x-scal-storage-class` exists, its type equals
`x-scal-storage-type`, and its `details.bucketName` equals the request's
bucket name. -/
def coherentLocation (lc : String → Option LocationConfig)
    (h : BackbeatHeaders) (bucketName : String) : Prop :=
  ∃ cls loc, h.scalStorageClass = some cls ∧ lc cls = some loc ∧
    h.scalStorageType = some loc.type ∧ loc.bucketName = some bucketName

/-- The boolean `isValidLocation` test agrees with the coherence
property. -/
theorem isValidLocationCheck_iff (lc : String → Option LocationConfig)
    (h : BackbeatHeaders) (bucketName : String) :
    isValidLocationCheck lc h bucketName = true ↔
      coherentLocation lc h bucketName := by
  unfold isValidLocationCheck coherentLocation
  cases hcls : h.scalStorageClass with
  | none => simp
  | some cls =>
    cases hlc : lc cls with
    | none => simp [hlc]
    | some loc =>
      simp only [hlc, Bool.and_eq_true, beq_iff_eq, Option.some.injEq]
      constructor
      · rintro ⟨hty, hb⟩
        exact ⟨cls, loc, rfl, hlc, hty.symm, hb⟩
      · rintro ⟨cls2, loc2, hc2, hl2, hty2, hb2⟩
        obtain rfl : cls = cls2 := Option.some.injEq _ _ ▸ hc2
        rw [hlc] at hl2
        obtain rfl : loc = loc2 := by injection hl2
        exact ⟨hty2.symm, hb2⟩

/-- C2: with every header required by the operation present, the
multiple-backend request check rejects with `InvalidRequest` exactly when
the location-coherence property fails, and passes exactly when it holds. -/
theorem checkMultipleBackend_location_coherence
    (lc : String → Option LocationConfig) (operation : String)
    (h : BackbeatHeaders) (bucketName : String)
    (hpres : noMissingBackendHeader operation h) :
    (checkMultipleBackendRequest lc operation h bucketName = none ↔
      coherentLocation lc h bucketName) ∧
    (checkMultipleBackendRequest lc operation h bucketName
        = some .invalidRequest ↔
      ¬ coherentLocation lc h bucketName) := by
  obtain ⟨p1, p2, p3, p4, p5, p6, p7⟩ := hpres
  have g1 : ¬ (((operation == "initiatempu" || operation == "putobject")
      && (h.scalVersionId == none)) = true) := by
    simp only [Bool.and_eq_true, Bool.or_eq_true, beq_iff_eq]
    rintro ⟨hop, hnone⟩
    exact p1 hop hnone
  have g2 : ¬ (((operation == "putpart")
      && (h.scalPartNumber == none)) = true) := by
    simp only [Bool.and_eq_true, beq_iff_eq]
    rintro ⟨hop, hnone⟩
    exact p2 hop hnone
  have g3 : ¬ (((operation == "putpart" || operation == "completempu")
      && (h.scalUploadId == none)) = true) := by
    simp only [Bool.and_eq_true, Bool.or_eq_true, beq_iff_eq]
    rintro ⟨hop, hnone⟩
    exact p3 hop hnone
  have g4 : ¬ (((operation == "putobject")
      && (h.scalCanonicalId == none)) = true) := by
    simp only [Bool.and_eq_true, beq_iff_eq]
    rintro ⟨hop, hnone⟩
    exact p4 hop hnone
  have g5 : ¬ (((operation == "putobject")
      && (h.contentMD5 == none)) = true) := by
    simp only [Bool.and_eq_true, beq_iff_eq]
    rintro ⟨hop, hnone⟩
    exact p5 hop hnone
  have g6 : ¬ ((h.scalStorageType == none) = true) := by
    simpa only [beq_iff_eq] using p6
  have g7 : ¬ ((h.scalStorageClass == none) = true) := by
    simpa only [beq_iff_eq] using p7
  have key : checkMultipleBackendRequest lc operation h bucketName =
      if isValidLocationCheck lc h bucketName then none
      else some .invalidRequest := by
    unfold checkMultipleBackendRequest
    rw [if_neg g1, if_neg g2, if_neg g3, if_neg g4, if_neg g5, if_neg g6,
      if_neg g7]
    cases hv : isValidLocationCheck lc h bucketName <;> simp [hv]
  have hcoh := isValidLocationCheck_iff lc h bucketName
  rw [key]
  cases hv : isValidLocationCheck lc h bucketName with
  | false =>
    rw [hv] at hcoh
    simp only [Bool.false_eq_true, false_iff] at hcoh
    simp [hcoh]
  | true =>
    rw [hv] at hcoh
    simp only [true_iff] at hcoh
    simp [hcoh]

/-- A registry with one azure location whose backend bucket is
`repl-bucket`. -/
def azureLocations : String → Option LocationConfig :=
  fun s =>
    if s = "azure-loc" then
      some { type := "azure", bucketName := some "repl-bucket" }
    else none

/-- Headers of an `initiatempu` replica request advertising storage type
`aws_s3` while naming the azure location. -/
def initiatempuAzureHeaders : BackbeatHeaders :=
  { scalVersionId := some "v1", scalStorageType := some "aws_s3",
    scalStorageClass := some "azure-loc" }

/-- C2 witness: the spec's scenario — an `initiatempu` request with
`x-scal-storage-type = aws_s3` whose `x-scal-storage-class` names an azure
location is rejected with `InvalidRequest`. -/
theorem checkMultipleBackend_location_coherence_witness :
    checkMultipleBackendRequest azureLocations "initiatempu"
      initiatempuAzureHeaders "repl-bucket" = some S3Error.invalidRequest :=
  ((checkMultipleBackend_location_coherence azureLocations "initiatempu"
      initiatempuAzureHeaders "repl-bucket" (by decide)).2).mpr
    (by
      rintro ⟨cls, loc, hcls, hloc, htype, hbucket⟩
      have hc : cls = "azure-loc" := by
        simpa [initiatempuAzureHeaders, eq_comm] using hcls
      subst hc
      have hl : loc = { type := "azure", bucketName := some "repl-bucket" } := by
        simpa [azureLocations, eq_comm] using hloc
      subst hl
      simp [initiatempuAzureHeaders] at htype)

/-- C5: the emptiness check runs first — any version or delete-marker hit
fails the deletion with `BucketNotEmpty` whatever the MPU listing would
say; with an empty version listing, any hit under the shadow MPU bucket's
overview keys fails it with `MPUinProgress`; in both failure cases NO
mutating metadata call is issued (no shadow-bucket delete, no deleted
flag, no user-bucket entry removal, no bucket-metadata delete). -/
theorem deleteBucket_check_order (env : DeleteBucketEnv) :
    (∀ v, env.listVersions = .ok v → 0 < v →
      deleteBucket env = (some S3Error.bucketNotEmpty, [])) ∧
    (∀ m, env.listVersions = .ok 0 → env.listMPU = .ok m → 0 < m →
      deleteBucket env = (some S3Error.mpuInProgress, [])) := by
  constructor
  · intro v hv hpos
    have hne : v ≠ 0 := Nat.pos_iff_ne_zero.mp hpos
    simp [deleteBucket, hv, hne]
  · intro m hv hm hpos
    have hne : m ≠ 0 := Nat.pos_iff_ne_zero.mp hpos
    simp [deleteBucket, hv, hm, hne]

/-- Metadata responses for a bucket holding one version. -/
def envWithVersions : DeleteBucketEnv :=
  { listVersions := .ok 1, listMPU := .ok 0, deleteMPUBucketResult := .ok,
    updateBucketResult := .ok, userEntryDelete := .ok,
    legacyEntryDelete := .ok, deleteBucketMDResult := .ok,
    sseAES256 := false }

/-- Metadata responses for an empty bucket with two in-flight MPUs. -/
def envWithMPU : DeleteBucketEnv :=
  { envWithVersions with listVersions := .ok 0, listMPU := .ok 2 }

/-- C5 witness: a non-empty bucket fails with `BucketNotEmpty` and an
empty bucket with in-flight MPUs fails with `MPUinProgress`, each with no
mutating call issued. -/
theorem deleteBucket_check_order_witness :
    deleteBucket envWithVersions = (some S3Error.bucketNotEmpty, []) ∧
    deleteBucket envWithMPU = (some S3Error.mpuInProgress, []) :=
  ⟨(deleteBucket_check_order envWithVersions).1 1 rfl (by decide),
   (deleteBucket_check_order envWithMPU).2 2 rfl rfl (by decide)⟩

/-- C6: on a backbeat metadata PUT with `x-scal-replication-content =
METADATA`, a missing target object fails with `ObjNotFound`; with an
existing target, the stored metadata equals the supplied metadata in every
field except `location`, which is preserved from the existing object's
metadata. -/
theorem putMetadata_metadata_only (omVal : ObjMD) (objMd : Option ObjMD) :
    (objMd = none →
      putMetadata (some "METADATA") objMd (some omVal)
        = .err .objNotFound) ∧
    (∀ m, objMd = some m →
      ∃ stored, putMetadata (some "METADATA") objMd (some omVal)
          = .stored stored
            { versioning := true, versionId := omVal.versionId } ∧
        stored.location = m.location ∧
        stored.versionId = omVal.versionId ∧
        stored.rest = omVal.rest) := by
  constructor
  · rintro rfl
    simp [putMetadata]
  · rintro m rfl
    refine ⟨{ omVal with location := m.location }, ?_, rfl, rfl, rfl⟩
    simp [putMetadata]

/-- Existing replica target metadata (old locations, old fields). -/
def sampleExistingMD : ObjMD :=
  { location := [cexExternalRecord], versionId := some "vOld",
    rest := "oldrest" }

/-- Incoming replicated metadata document. -/
def sampleIncomingMD : ObjMD :=
  { location := [], versionId := some "vNew", rest := "newrest" }

/-- C6 witness: concrete metadata-only replication, against a missing and
against an existing target. -/
theorem putMetadata_metadata_only_witness :
    putMetadata (some "METADATA") none (some sampleIncomingMD)
      = .err .objNotFound ∧
    (∃ stored, putMetadata (some "METADATA") (some sampleExistingMD)
        (some sampleIncomingMD)
        = .stored stored
          { versioning := true, versionId := sampleIncomingMD.versionId } ∧
      stored.location = sampleExistingMD.location ∧
      stored.versionId = sampleIncomingMD.versionId ∧
      stored.rest = sampleIncomingMD.rest) :=
  ⟨(putMetadata_metadata_only sampleIncomingMD none).1 rfl,
   (putMetadata_metadata_only sampleIncomingMD (some sampleExistingMD)).2
      sampleExistingMD rfl⟩

/-- C7: a backbeat request routed to a `data` or `metadata` handler whose
target bucket lacks a versioning configuration with `Status = Enabled` is
rejected with `InvalidBucketState`; the route handler is never invoked, so
nothing in the bucket is mutated. -/
theorem routeBackbeat_versioning_guard (method resourceType : String)
    (operation : Option String) (b : BucketInfo) (hid : HandlerId)
    (hres : resourceType = "data" ∨ resourceType = "metadata")
    (hroute : backbeatRouteLookup method resourceType operation = some hid)
    (hver : ¬ ∃ vc, b.versioningConfiguration = some vc ∧
      vc.status = some "Enabled") :
    routeBackbeatStep method resourceType operation b
      = .errResp .invalidBucketState := by
  have hmb : (resourceType == "multiplebackenddata") = false := by
    rcases hres with rfl | rfl <;> rfl
  cases hv : b.versioningConfiguration with
  | none => simp [routeBackbeatStep, hroute, hmb, hv]
  | some vc =>
    have hst : (vc.status == some "Enabled") = false :=
      beq_eq_false_iff_ne.mpr (fun hs => hver ⟨vc, hv, hs⟩)
    simp [routeBackbeatStep, hroute, hmb, hv, hst]

/-- A bucket whose versioning is suspended. -/
def suspendedBucket : BucketInfo :=
  { versioningConfiguration := some { status := some "Suspended" } }

/-- C7 witness: a backbeat metadata PUT on a versioning-suspended bucket is
rejected with `InvalidBucketState`. -/
theorem routeBackbeat_versioning_guard_witness :
    routeBackbeatStep "PUT" "metadata" none suspendedBucket
      = .errResp .invalidBucketState :=
  routeBackbeat_versioning_guard "PUT" "metadata" none suspendedBucket
    .putMetadata (Or.inr rfl) rfl
    (by
      rintro ⟨vc, hvc, hs⟩
      have hv : vc = { status := some "Suspended" } := by
        simpa [suspendedBucket, eq_comm] using hvc
      subst hv
      simp at hs)

/-- An empty client registry: no location has a registered backend. -/
def noClients : String → Option BackendClient := fun _ => none

/-- C8 counterexample: the claim promises that `get` and `delete`, like
`put`, deliver `InternalError` through their callback when no client is
registered for the record's `dataStoreName` — but the source dereferences
`client.clientType` without a guard, so both crash with a thrown
`TypeError` and the callback never fires. -/
theorem mbg_missing_client_claim_false :
    ¬ (mbgGet noClients (.record sampleRecord) .cbEmpty
        = .cbErr .internalError) ∧
    ¬ (mbgDelete noClients (.record sampleRecord) .cbEmpty
        = .cbErr .internalError) := by
  decide

/-- C8 (amended): with a missing client, only `put` completes with an
`InternalError` delivered through its callback; `get` and `delete`
dereference the missing client and crash with a `TypeError`, never
invoking the callback. -/
theorem mbg_missing_client_behaviour
    (clients : String → Option BackendClient) (lcName : String)
    (arg : ObjectGetInfoArg) :
    (clients lcName = none → ∀ tp tv br,
      mbgPut clients lcName tp tv br = .cbErr .internalError) ∧
    (mbgClientFor clients arg = none →
      (∀ co, mbgGet clients arg co = .crash) ∧
      (∀ co, mbgDelete clients arg co = .crash)) := by
  constructor
  · intro hnone tp tv br
    simp [mbgPut, hnone]
  · intro hnone
    exact ⟨fun co => by simp [mbgGet, hnone],
      fun co => by simp [mbgDelete, hnone]⟩

/-- C8 amended-claim witness: concrete outcomes against the empty
registry. -/
theorem mbg_missing_client_behaviour_witness :
    mbgPut noClients "loc1" false false (.error ())
      = .cbErr .internalError ∧
    mbgGet noClients (.bareKey "old-key") .cbEmpty = .crash ∧
    mbgDelete noClients (.record sampleRecord) .cbEmpty = .crash :=
  ⟨(mbg_missing_client_behaviour noClients "loc1"
      (.bareKey "old-key")).1 rfl false false (.error ()),
   ((mbg_missing_client_behaviour noClients "loc1"
      (.bareKey "old-key")).2 rfl).1 .cbEmpty,
   ((mbg_missing_client_behaviour noClients "loc1"
      (.record sampleRecord)).2 rfl).2 .cbEmpty⟩

/-- C10: an `initiatempu` request that passes the location-coherence check
against a location whose registered client's type is not `aws_s3` crashes:
the gateway's `createMPU` calls its callback with neither error nor
result, the handler reads `UploadId` of the absent result, and neither the
promised `uploadId` response nor an in-band error is produced. -/
theorem initiateMPU_non_aws_no_response
    (lc : String → Option LocationConfig)
    (clients : String → Option BackendClient) (h : BackbeatHeaders)
    (bucketName cls : String) (client : BackendClient)
    (awsOutcome : GatewayResult MPUData)
    (hcheck : checkMultipleBackendRequest lc "initiatempu" h bucketName
      = none)
    (hcls : h.scalStorageClass = some cls)
    (hclient : clients cls = some client)
    (htype : client.clientType ≠ "aws_s3") :
    initiateMultipartUpload lc clients h bucketName awsOutcome
      = .crash := by
  have hty : (client.clientType == "aws_s3") = false :=
    beq_eq_false_iff_ne.mpr htype
  simp [initiateMultipartUpload, hcheck, hcls, mbgCreateMPU, hclient, hty]

/-- A client registry with one azure client registered for the azure
location. -/
def azureClients : String → Option BackendClient :=
  fun s => if s = "azure-loc" then some { clientType := "azure" } else none

/-- Headers of an `initiatempu` request that passes the coherence check
against the azure location. -/
def initiatempuAzureMatchedHeaders : BackbeatHeaders :=
  { scalVersionId := some "v1", scalStorageType := some "azure",
    scalStorageClass := some "azure-loc" }

/-- C10 witness: a coherent `initiatempu` replica request to the azure
location crashes instead of answering. -/
theorem initiateMPU_non_aws_no_response_witness :
    initiateMultipartUpload azureLocations azureClients
      initiatempuAzureMatchedHeaders "repl-bucket" .cbEmpty = .crash :=
  initiateMPU_non_aws_no_response azureLocations azureClients
    initiatempuAzureMatchedHeaders "repl-bucket" "azure-loc"
    { clientType := "azure" } .cbEmpty rfl rfl rfl (by decide)

end S3
